import Mathlib

/-!
Verification development for the zana crate: a shallow embedding of the
book-metadata provider clients (src/services/zana/src/lib.rs and
src/services/zana/src/googlebooks.rs) together with theorems settling the
behavioural claims about them.

Modelling conventions:
- Rust `u32`/`u16` values are modelled as `Nat` (no arithmetic is performed
  on them anywhere in the embedded code, so no overflow reduction is needed).
- Rust `f32` values are modelled as `Rat`; the embedded code only stores and
  compares these values, never computes with them, and every concrete value
  appearing in the claims (4.5, 0) is exactly representable.
- JSON payloads are modelled at the level of JSON values (`Json` below);
  parsing of raw text into a JSON value is the serde library's concern and is
  treated as data.  An HTTP response therefore carries both its raw text body
  (`body`, the value `response.text()` yields) and the result of JSON-parsing
  that body (`bodyJson`, `none` when the body is not valid JSON).  The
  serde-derived decoding of the provider payload shapes (`Volume`,
  `VolumeItem`, `VolumeInfo`) is embedded explicitly, because serde's
  treatment of absent fields is load-bearing for several claims: a field of a
  non-`Option` type that is absent from the payload makes the whole decode
  fail, while an `Option` field decodes to `None`.
- Fallible Rust code returning `Result<T, ClientError>` is modelled as
  `Except ClientError T`.  A failing `reqwest`/serde step (the `?` operator
  on `send()`, `text()` or `json()`) surfaces as
  `ClientError.InternalClient`; the wrapped transport-error detail carried by
  the Rust variant is abstracted away as it never influences control flow.
- The HTTP backend is modelled as an oracle `respond : String → Response`
  mapping the search query of a GET request to the response the provider
  returns for it (the other request parameters — API key, result cap, field
  hint — are fixed by the client and do not vary between the calls a claim
  compares).
-/

deriving instance DecidableEq for Except

/-- A JSON value, used to model response payloads after parsing. -/
inductive Json where
  | null
  | bool (b : Bool)
  | num (q : Rat)
  | str (s : String)
  | arr (elems : List Json)
  | obj (fields : List (String × Json))

/-- Looks up a field of a JSON object by key (first match), as serde does;
fields of other JSON values do not exist. -/
def Json.getField (j : Json) (key : String) : Option Json :=
  match j with
  | .obj fields =>
      match fields.find? (fun p => p.1 == key) with
      | some p => some p.2
      | none => none
  | _ => none

/-- Decodes a JSON value as a Rust `String`, as serde does. -/
def Json.asStr (j : Json) : Option String :=
  match j with
  | .str s => some s
  | _ => none

/-- Decodes a JSON value as a Rust `u32` (`Nat` below 2^32), as serde does. -/
def Json.asU32 (j : Json) : Option Nat :=
  match j with
  | .num q =>
      if q.den = 1 ∧ 0 ≤ q.num ∧ q.num < 4294967296 then some q.num.toNat else none
  | _ => none

/-- Decodes a JSON value as a Rust `f32` (modelled as `Rat`), as serde does. -/
def Json.asNum (j : Json) : Option Rat :=
  match j with
  | .num q => some q
  | _ => none

/-- Decodes a JSON value as a Rust `Vec<String>`, as serde does. -/
def Json.asStrList (j : Json) : Option (List String) :=
  match j with
  | .arr elems => elems.mapM Json.asStr
  | _ => none

/-- The rating data of lib.rs: average score and volume of ratings.
`average_rating: f32` is modelled as `Rat`, `ratings_count: u32` as `Nat`. -/
structure Rating where
  average_rating : Rat
  ratings_count : Nat
deriving DecidableEq

/-- Embeds `Rating::new` of lib.rs: stores the two fields unconditionally. -/
def Rating.new (average_rating : Rat) (ratings_count : Nat) : Rating :=
  { average_rating, ratings_count }

/-- The normalized book result of lib.rs. -/
structure Book where
  page_count : Nat
  description : String
  provider_link : String
  rating : Option Rating
deriving DecidableEq

/-- Embeds `Book::new` of lib.rs: rating defaults to `None`. -/
def Book.new (page_count : Nat) (description provider_link : String) : Book :=
  { page_count, description, provider_link, rating := none }

/-- Embeds `Book::new_with_rating` of lib.rs: builds the book via `Book::new`
and then overwrites the rating field with `Some rating`. -/
def Book.new_with_rating (page_count : Nat) (description provider_link : String)
    (rating : Rating) : Book :=
  let book := Book.new page_count description provider_link
  { book with rating := some rating }

/-- The closed error taxonomy `ClientError` of lib.rs.  `InternalClient`
wraps a `reqwest::Error` in the source (transport failures and, via the `?`
on `response.json()`, payload-decode failures); the wrapped error value is
abstracted away. -/
inductive ClientError where
  | InternalClient
  | RateLimitExceeded
  | NotFound
  | Http (status : Nat) (body : String)
deriving DecidableEq

/-- An HTTP response as the client observes it: the status code, the raw text
body (`response.text()`), and the JSON parse of that body
(`response.json()`s first stage; `none` when the body is not valid JSON). -/
structure Response where
  status : Nat
  body : String
  bodyJson : Option Json

/-- The deserialized `volumeInfo` object of googlebooks.rs.  Every field,
including the unused `_title` and `_authors`, is of a non-`Option` type in
the source, so serde requires each one to be present in the payload. -/
structure VolumeInfo where
  _title : String
  _authors : List String
  description : String
  page_count : Nat
  average_rating : Rat
  ratings_count : Nat
deriving DecidableEq

/-- The deserialized volume item of googlebooks.rs: the renamed
`volumeInfo` field is required. -/
structure VolumeItem where
  info : VolumeInfo
deriving DecidableEq

/-- The deserialized volumes payload of googlebooks.rs: `items` is
`Option<Vec<VolumeItem>>`, so an absent or `null` field decodes to `none`. -/
structure Volume where
  items : Option (List VolumeItem)
deriving DecidableEq

/-- The serde decoding of `VolumeInfo` from a JSON value: all six fields are
required (none is an `Option` and none has a serde default), so any absent or
ill-typed field fails the decode. -/
def decodeVolumeInfo (j : Json) : Option VolumeInfo := do
  let title ← (j.getField "title").bind Json.asStr
  let authors ← (j.getField "authors").bind Json.asStrList
  let description ← (j.getField "description").bind Json.asStr
  let page_count ← (j.getField "pageCount").bind Json.asU32
  let average_rating ← (j.getField "averageRating").bind Json.asNum
  let ratings_count ← (j.getField "ratingsCount").bind Json.asU32
  pure { _title := title, _authors := authors, description, page_count,
         average_rating, ratings_count }

/-- The serde decoding of `VolumeItem`: the `volumeInfo` field is required. -/
def decodeVolumeItem (j : Json) : Option VolumeItem := do
  let info ← (j.getField "volumeInfo").bind decodeVolumeInfo
  pure { info }

/-- The serde decoding of `Volume`: `items` is an `Option` field, so an
absent or `null` `items` decodes to `none`; a present `items` must be an
array whose every element decodes as a `VolumeItem`.  A non-object payload
fails the decode. -/
def decodeVolume (j : Json) : Option Volume :=
  match j with
  | .obj _ =>
      match j.getField "items" with
      | none => some { items := none }
      | some .null => some { items := none }
      | some (.arr elems) =>
          (elems.mapM decodeVolumeItem).map (fun items => { items := some items })
      | some _ => none
  | _ => none

/-- The Google Books client of googlebooks.rs, with its HTTP backend
modelled as an oracle from the search query to the provider's response. -/
structure Client where
  api_key : String
  api_url : String
  respond : String → Response

/-- Embeds `Client::create_book` of googlebooks.rs: an empty item list is
`NotFound`; otherwise the first item's info is read, a `Rating` is built
unconditionally from its average rating and ratings count, and the book is
built with `Book::new_with_rating`.  The source calls `new_with_rating`
without any `provider_link` argument (the call site omits the parameter, a
type error in the source); the missing argument is modelled as the empty
string. -/
def Client.create_book (_c : Client) (items : List VolumeItem) :
    Except ClientError Book :=
  match items with
  | [] => .error .NotFound
  | volume_item :: _ =>
      let volume_info := volume_item.info
      let rating := Rating.new volume_info.average_rating volume_info.ratings_count
      .ok (Book.new_with_rating volume_info.page_count volume_info.description
        "" rating)

/-- Embeds `Client::fetch_book` of googlebooks.rs from the point where the
response is inspected: status 429 or 403 is `RateLimitExceeded` before the
body is read; any other status outside [200, 300) is `Http(status, body)`
with the raw text body; otherwise the body is decoded as a `Volume` (a parse
or decode failure surfaces through `?` as `InternalClient`), a present item
list goes to `create_book`, and an absent one is `NotFound`. -/
def Client.fetch_book (c : Client) (query : String) : Except ClientError Book :=
  let response := c.respond query
  if response.status = 429 ∨ response.status = 403 then
    .error .RateLimitExceeded
  else if response.status < 200 ∨ 300 ≤ response.status then
    .error (.Http response.status response.body)
  else
    match response.bodyJson with
    | none => .error .InternalClient
    | some parsed =>
        match decodeVolume parsed with
        | none => .error .InternalClient
        | some volume =>
            match volume.items with
            | some items => c.create_book items
            | none => .error .NotFound

/-- Embeds `BookClient::book_by_isbn` for the Google Books client: a single
`fetch_book` on the query `isbn:<value>`. -/
def Client.book_by_isbn (c : Client) (isbn : String) : Except ClientError Book :=
  c.fetch_book ("isbn:" ++ isbn)

/-- Embeds `BookClient::book` for the Google Books client: a single
`fetch_book` on the query `inauthor:<author> intitle:<title>`. -/
def Client.book (c : Client) (author title : String) : Except ClientError Book :=
  c.fetch_book ("inauthor:" ++ author ++ " intitle:" ++ title)

/-- Modelled from the spec: lib.rs declares `pub mod openlibrary;` but
openlibrary.rs is not under src/, so the multi-call provider's edition
record is modelled from spec section 4.4.  The edition record supplies the
page count and the provider link, and holds the reference to its parent
work; the spec names no JSON fields, so only the extracted record is
modelled. -/
structure OLEdition where
  pageCount : Nat
  providerLink : String
  workRef : String
deriving DecidableEq

/-- Modelled from the spec: the work record supplies fields not present on
the edition record, notably the description (spec section 4.4 step 2). -/
structure OLWork where
  description : String
deriving DecidableEq

/-- Modelled from the spec: the ratings record holds community rating
aggregates (spec section 4.4 step 3); a rating is only considered genuinely
present when non-null and not zero-filled (spec section 3), so the record
carries the rating already reduced to an `Option Rating`. -/
structure OLRatings where
  rating : Option Rating
deriving DecidableEq

/-- Modelled from the spec: which of the three calls of the multi-call
provider were performed, recorded in order (spec section 4.4). -/
inductive OLCall where
  | edition
  | work
  | ratings
deriving DecidableEq

/-- Modelled from the spec: classification of one HTTP response of the
multi-call provider per the shared rules of spec sections 4.1 and 4.4 — an
explicit 404 is `NotFound`, a throttling status is `RateLimitExceeded`, any
other non-2xx status is `Http(status, body)`, and on a 2xx the payload is
decoded (a parse or decode failure surfacing as the transport-failure kind,
here `InternalClient`). -/
def olClassify {α : Type} (resp : Response) (decode : Json → Option α) :
    Except ClientError α :=
  if resp.status = 404 then .error .NotFound
  else if resp.status = 429 then .error .RateLimitExceeded
  else if resp.status < 200 ∨ 300 ≤ resp.status then
    .error (.Http resp.status resp.body)
  else
    match resp.bodyJson with
    | none => .error .InternalClient
    | some parsed =>
        match decode parsed with
        | none => .error .InternalClient
        | some a => .ok a

/-- Modelled from the spec: the merge and partial-failure policy of spec
sections 4.4 and 7, over the already-classified results of the three calls,
also recording which calls were attempted.  A primary (edition) failure is
fatal and returned as-is, with neither enrichment call attempted; failures
of the work or ratings calls are absorbed, defaulting the description to the
empty string and the rating to `None`.  Page count and provider link come
from the edition record, the description from the work record, the rating
from the ratings record. -/
def olLookup (primary : Except ClientError OLEdition)
    (workRes : Except ClientError OLWork)
    (ratingsRes : Except ClientError OLRatings) :
    Except ClientError Book × List OLCall :=
  match primary with
  | .error e => (.error e, [OLCall.edition])
  | .ok ed =>
      let description :=
        match workRes with
        | .ok w => w.description
        | .error _ => ""
      let rating :=
        match ratingsRes with
        | .ok r => r.rating
        | .error _ => none
      (.ok { page_count := ed.pageCount, description,
             provider_link := ed.providerLink, rating },
       [OLCall.edition, OLCall.work, OLCall.ratings])

/-- Modelled from the spec: the three responses the backend returns for the
multi-call provider's edition, work and ratings requests. -/
structure OLBackend where
  editionResp : Response
  workResp : Response
  ratingsResp : Response

/-- Modelled from the spec: decoding an edition-record payload.  The spec
fixes no field names, so representative OpenLibrary names are used; their
choice is irrelevant to the claims, which concern the classification and
sequencing around the decode.  Page count defaults to 0 when omitted (spec
section 3). -/
def decodeOLEdition (j : Json) : Option OLEdition :=
  match j with
  | .obj _ =>
      some { pageCount := ((j.getField "number_of_pages").bind Json.asU32).getD 0,
             providerLink := ((j.getField "key").bind Json.asStr).getD "",
             workRef := ((j.getField "works").bind Json.asStr).getD "" }
  | _ => none

/-- Modelled from the spec: decoding a work-record payload; the description
defaults to the empty string when omitted (spec section 3). -/
def decodeOLWork (j : Json) : Option OLWork :=
  match j with
  | .obj _ =>
      some { description := ((j.getField "description").bind Json.asStr).getD "" }
  | _ => none

/-- Modelled from the spec: decoding a ratings-record payload into a rating
considered genuinely present — constructed only when both the average and
the count are present and not both zero (spec section 3). -/
def decodeOLRatings (j : Json) : Option OLRatings :=
  match j with
  | .obj _ =>
      match (j.getField "average").bind Json.asNum,
            (j.getField "count").bind Json.asU32 with
      | some average, some count =>
          if average = 0 ∧ count = 0 then some { rating := none }
          else some { rating := some (Rating.new average count) }
      | _, _ => some { rating := none }
  | _ => none

/-- Modelled from the spec: the multi-call provider's ISBN lookup — classify
and decode the edition response, then the work response, then the ratings
response, merged under the partial-failure policy of `olLookup`. -/
def olBookByIsbn (backend : OLBackend) : Except ClientError Book × List OLCall :=
  olLookup (olClassify backend.editionResp decodeOLEdition)
    (olClassify backend.workResp decodeOLWork)
    (olClassify backend.ratingsResp decodeOLRatings)

/-- Claim C1: for every lookup through the Google Books client, by ISBN or by
author and title, a response with HTTP status 429 or 403 makes the operation
return `ClientError.RateLimitExceeded`, whatever the response body holds (the
quantification over the client covers every body). -/
theorem googlebooks_rate_limit_429_403 (c : Client) (isbn author title : String)
    (h1 : (c.respond ("isbn:" ++ isbn)).status = 429 ∨
          (c.respond ("isbn:" ++ isbn)).status = 403)
    (h2 : (c.respond ("inauthor:" ++ author ++ " intitle:" ++ title)).status = 429 ∨
          (c.respond ("inauthor:" ++ author ++ " intitle:" ++ title)).status = 403) :
    c.book_by_isbn isbn = .error .RateLimitExceeded ∧
    c.book author title = .error .RateLimitExceeded := by
  constructor
  · simp only [Client.book_by_isbn, Client.fetch_book]
    rw [if_pos h1]
  · simp only [Client.book, Client.fetch_book]
    rw [if_pos h2]

/-- Witness for claim C1 at a concrete throttled backend. -/
def rateLimitedClient : Client :=
  { api_key := "key", api_url := "url",
    respond := fun _ => { status := 429, body := "irrelevant", bodyJson := none } }

/-- Claim C1 witness: a backend answering 429 everywhere yields
`RateLimitExceeded` on both operations. -/
theorem googlebooks_rate_limit_429_403_witness :
    rateLimitedClient.book_by_isbn "1" = .error .RateLimitExceeded ∧
    rateLimitedClient.book "a" "t" = .error .RateLimitExceeded :=
  googlebooks_rate_limit_429_403 rateLimitedClient "1" "a" "t"
    (Or.inl rfl) (Or.inl rfl)

/-- Claim C2: for every Google Books lookup, a response whose status lies
outside [200, 300) and is neither 429 nor 403 yields
`ClientError.Http(status, body)` with the status and raw body of the
response, exactly.  (This client maps no 404 to `NotFound`, so 404 falls
under this rule, as the claim's parenthetical allows.) -/
theorem googlebooks_http_passthrough (c : Client) (query : String)
    (h1 : (c.respond query).status < 200 ∨ 300 ≤ (c.respond query).status)
    (h2 : (c.respond query).status ≠ 429)
    (h3 : (c.respond query).status ≠ 403) :
    c.fetch_book query =
      .error (.Http (c.respond query).status (c.respond query).body) := by
  simp only [Client.fetch_book]
  rw [if_neg (fun h => h.elim h2 h3), if_pos h1]

/-- Witness for claim C2 at a concrete failing backend. -/
def httpErrorClient : Client :=
  { api_key := "key", api_url := "url",
    respond := fun _ => { status := 500, body := "oops", bodyJson := none } }

/-- Claim C2 witness: a 500 response with body "oops" yields
`Http 500 "oops"`. -/
theorem googlebooks_http_passthrough_witness :
    httpErrorClient.fetch_book "isbn:1" = .error (.Http 500 "oops") :=
  googlebooks_http_passthrough httpErrorClient "isbn:1"
    (Or.inr (by decide)) (by decide) (by decide)

/-- Claim C3: for every Google Books lookup, a 2xx response whose decoded
result list is absent or empty yields `ClientError.NotFound`. -/
theorem googlebooks_empty_items_not_found (c : Client) (query : String) (v : Volume)
    (h1 : 200 ≤ (c.respond query).status)
    (h2 : (c.respond query).status < 300)
    (h3 : (c.respond query).bodyJson.bind decodeVolume = some v)
    (h4 : v.items = none ∨ v.items = some []) :
    c.fetch_book query = .error .NotFound := by
  have h5 : ¬((c.respond query).status = 429 ∨ (c.respond query).status = 403) := by
    omega
  have h6 : ¬((c.respond query).status < 200 ∨ 300 ≤ (c.respond query).status) := by
    omega
  rcases hbj : (c.respond query).bodyJson with _ | parsed
  · rw [hbj] at h3
    exact absurd h3 (by simp)
  · rw [hbj] at h3
    rw [Option.some_bind] at h3
    simp only [Client.fetch_book, if_neg h5, if_neg h6, hbj, h3]
    rcases h4 with h4 | h4 <;> simp [h4, Client.create_book]

/-- Witness for claim C3 at a concrete backend returning an empty item
list. -/
def emptyItemsClient : Client :=
  { api_key := "key", api_url := "url",
    respond := fun _ =>
      { status := 200, body := "", bodyJson := some (Json.obj [("items", Json.arr [])]) } }

/-- Claim C3 witness: a 200 response whose items array is empty yields
`NotFound`. -/
theorem googlebooks_empty_items_not_found_witness :
    emptyItemsClient.fetch_book "isbn:1" = .error .NotFound :=
  googlebooks_empty_items_not_found emptyItemsClient "isbn:1" { items := some [] }
    (by decide) (by decide) (by decide) (Or.inr rfl)

/-- Claim C10: `Book::new_with_rating p d l r` equals `Book::new p d l` with
its rating field replaced by `Some r`; the other three fields of the two
constructions agree, and `Book::new` always sets the rating to `None`. -/
theorem book_constructors_relationship (p : Nat) (d l : String) (r : Rating) :
    Book.new_with_rating p d l r = { Book.new p d l with rating := some r } ∧
    (Book.new_with_rating p d l r).page_count = (Book.new p d l).page_count ∧
    (Book.new_with_rating p d l r).description = (Book.new p d l).description ∧
    (Book.new_with_rating p d l r).provider_link = (Book.new p d l).provider_link ∧
    (Book.new p d l).rating = none ∧
    (Book.new_with_rating p d l r).rating = some r :=
  ⟨rfl, rfl, rfl, rfl, rfl, rfl⟩

/-- A complete volumeInfo payload whose average rating and ratings count are
both zero, used to probe claim C4. -/
def zeroRatingBody : Json :=
  Json.obj [("items", Json.arr [Json.obj [("volumeInfo", Json.obj
    [("title", Json.str "T"), ("authors", Json.arr [Json.str "A"]),
     ("description", Json.str "d"), ("pageCount", Json.num 1),
     ("averageRating", Json.num 0), ("ratingsCount", Json.num 0)])]])]

/-- Backend for claim C4: a 200 response whose first item reports an average
rating of 0 and a ratings count of 0. -/
def zeroRatingClient : Client :=
  { api_key := "key", api_url := "url",
    respond := fun _ => { status := 200, body := "", bodyJson := some zeroRatingBody } }

/-- Claim C4 (code bug): the claim, echoing the doc of `Rating::new`, says a
both-zero source rating makes `Book.rating` `None`; `create_book` instead
constructs the `Rating` unconditionally, so the lookup returns
`Some(Rating 0, 0)`.  (A null source rating does not yield `None` either: the
non-`Option` `averageRating`/`ratingsCount` fields make the decode fail.) -/
theorem googlebooks_zero_rating_still_some :
    (zeroRatingClient.book_by_isbn "1").map Book.rating =
      .ok (some (Rating.new 0 0)) := by decide

/-- A complete volumeInfo payload except for `pageCount`, used to probe
claim C5. -/
def noPageCountBody : Json :=
  Json.obj [("items", Json.arr [Json.obj [("volumeInfo", Json.obj
    [("title", Json.str "T"), ("authors", Json.arr [Json.str "A"]),
     ("description", Json.str "d"),
     ("averageRating", Json.num 1), ("ratingsCount", Json.num 1)])]])]

/-- A complete volumeInfo payload except for `description`, used to probe
claim C5. -/
def noDescriptionBody : Json :=
  Json.obj [("items", Json.arr [Json.obj [("volumeInfo", Json.obj
    [("title", Json.str "T"), ("authors", Json.arr [Json.str "A"]),
     ("pageCount", Json.num 1),
     ("averageRating", Json.num 1), ("ratingsCount", Json.num 1)])]])]

/-- Backend for claim C5: a 200 response whose payload omits `pageCount`. -/
def noPageCountClient : Client :=
  { api_key := "key", api_url := "url",
    respond := fun _ => { status := 200, body := "", bodyJson := some noPageCountBody } }

/-- Backend for claim C5: a 200 response whose payload omits `description`. -/
def noDescriptionClient : Client :=
  { api_key := "key", api_url := "url",
    respond := fun _ => { status := 200, body := "", bodyJson := some noDescriptionBody } }

/-- Claim C5 (code bug): the claim, echoing the `Book` doc in lib.rs, says an
omitted page count defaults to 0 and an omitted description to the empty
string, never an error; the non-`Option`, non-defaulted `pageCount` and
`description` fields of `VolumeInfo` instead make the serde decode fail, so
the lookup returns the wrapped decode error (`InternalClient`). -/
theorem googlebooks_missing_field_errors :
    noPageCountClient.book_by_isbn "1" = .error .InternalClient ∧
    noDescriptionClient.book_by_isbn "1" = .error .InternalClient := by decide

/-- The exact payload of claim C6's end-to-end example: one item whose
volumeInfo holds only description, pageCount, averageRating and
ratingsCount. -/
def examplePayloadBody : Json :=
  Json.obj [("items", Json.arr [Json.obj [("volumeInfo", Json.obj
    [("description", Json.str "A novel."), ("pageCount", Json.num 320),
     ("averageRating", Json.num 4.5), ("ratingsCount", Json.num 1200)])]])]

/-- Backend for claim C6: a 200 response carrying the example payload. -/
def examplePayloadClient : Client :=
  { api_key := "key", api_url := "url",
    respond := fun _ => { status := 200, body := "", bodyJson := some examplePayloadBody } }

/-- Claim C6 counterexample: on the example payload as written — which has no
`title` and no `authors` — the required non-`Option` `_title` and `_authors`
fields of `VolumeInfo` make the serde decode fail, so the lookup returns the
wrapped decode error instead of the claimed `Ok(Book)`. -/
theorem googlebooks_example_payload_decode_fails :
    examplePayloadClient.book_by_isbn "1" = .error .InternalClient := by decide

/-- The example payload of claim C6 amended with the `title` and `authors`
fields that `VolumeInfo` requires. -/
def examplePayloadFullBody : Json :=
  Json.obj [("items", Json.arr [Json.obj [("volumeInfo", Json.obj
    [("title", Json.str "T"), ("authors", Json.arr [Json.str "A"]),
     ("description", Json.str "A novel."), ("pageCount", Json.num 320),
     ("averageRating", Json.num 4.5), ("ratingsCount", Json.num 1200)])]])]

/-- Backend for the amended claim C6. -/
def examplePayloadFullClient : Client :=
  { api_key := "key", api_url := "url",
    respond := fun _ =>
      { status := 200, body := "", bodyJson := some examplePayloadFullBody } }

/-- Claim C6 amended: with `title` and `authors` added to the example
payload, the lookup returns `Ok` with page count 320, description
"A novel." and rating `Some(Rating 4.5, 1200)`. -/
theorem googlebooks_example_payload_amended :
    (examplePayloadFullClient.book_by_isbn "1").map
      (fun b => (b.page_count, b.description, b.rating)) =
    .ok (320, "A novel.", some (Rating.new 4.5 1200)) := rfl

/-- Backend for claim C7: a 200 response with a fully decodable payload, to
probe the provider link of a successful lookup. -/
def linkProbeClient : Client :=
  { api_key := "key", api_url := "url",
    respond := fun _ =>
      { status := 200, body := "", bodyJson := some examplePayloadFullBody } }

/-- Claim C7 (code bug): the claim, echoing the `Book` doc in lib.rs, says
the provider client always populates `provider_link` with a URL to the
record; the `create_book` call site passes no `provider_link` argument to
`Book::new_with_rating` at all (the call is missing the parameter and does
not typecheck against lib.rs), so no successful Google Books lookup ever
populates it — modelled as the empty string, the book's link is empty. -/
theorem googlebooks_provider_link_empty :
    (linkProbeClient.book_by_isbn "1").map Book.provider_link = .ok "" := by decide

/-- Backend for claim C8: the identifier query for ISBN 1 finds no data (an
empty item list), while the free-text query for author A and title T — the
documented backup — would return the full example payload. -/
def fallbackProbeClient : Client :=
  { api_key := "key", api_url := "url",
    respond := fun q =>
      if q == "isbn:1" then
        { status := 200, body := "", bodyJson := some (Json.obj [("items", Json.arr [])]) }
      else
        { status := 200, body := "", bodyJson := some examplePayloadFullBody } }

/-- Claim C8 counterexample: with backup data available under the author and
title query, `book_by_isbn` still returns `NotFound` for an ISBN with no
data — no backup query is used before the operation returns.  (Indeed
`book_by_isbn` receives no author or title to build one from.) -/
theorem googlebooks_no_fallback_counterexample :
    fallbackProbeClient.book_by_isbn "1" = .error .NotFound ∧
    (fallbackProbeClient.book "A" "T").map Book.page_count = .ok 320 := by decide

/-- Claim C8 amended: `book_by_isbn` issues exactly one identifier query and
returns its classification; its result depends only on the backend's
response to the query `isbn:<value>`, so no free-text backup query can
influence it.  The fallback documented in lib.rs is a caller's composition
of the two separate operations. -/
theorem googlebooks_isbn_lookup_single_query (c c2 : Client) (isbn : String)
    (h : c.respond ("isbn:" ++ isbn) = c2.respond ("isbn:" ++ isbn)) :
    c.book_by_isbn isbn = c2.book_by_isbn isbn := by
  simp only [Client.book_by_isbn, Client.fetch_book, Client.create_book, h]

/-- The response both clients of the claim C8 witness share on the
identifier query. -/
def sharedIsbnResponse : Response :=
  { status := 200, body := "", bodyJson := some (Json.obj []) }

/-- First client of the claim C8 witness: differs from the second on every
query except the identifier one. -/
def isbnOnlyClientA : Client :=
  { api_key := "key", api_url := "url",
    respond := fun q =>
      if q == "isbn:7" then sharedIsbnResponse
      else { status := 500, body := "a", bodyJson := none } }

/-- Second client of the claim C8 witness. -/
def isbnOnlyClientB : Client :=
  { api_key := "key", api_url := "url",
    respond := fun q =>
      if q == "isbn:7" then sharedIsbnResponse
      else { status := 429, body := "b", bodyJson := none } }

/-- Claim C8 amended witness: two backends agreeing only on the identifier
query give equal `book_by_isbn` results. -/
theorem googlebooks_isbn_lookup_single_query_witness :
    isbnOnlyClientA.book_by_isbn "7" = isbnOnlyClientB.book_by_isbn "7" :=
  googlebooks_isbn_lookup_single_query isbnOnlyClientA isbnOnlyClientB "7" rfl

/-- Claim C9: for the multi-call provider, a primary edition-record call
failing with any taxonomy kind makes the whole operation return that exact
kind, with only the edition call attempted — the work and ratings calls are
not performed, whatever their responses would have been. -/
theorem openlibrary_primary_failure_aborts (backend : OLBackend) (e : ClientError)
    (h : olClassify backend.editionResp decodeOLEdition = .error e) :
    olBookByIsbn backend = (.error e, [OLCall.edition]) := by
  simp only [olBookByIsbn, olLookup, h]

/-- Backend for the claim C9 witness: the edition request 404s while the
work and ratings requests would succeed. -/
def olMissingEditionBackend : OLBackend :=
  { editionResp := { status := 404, body := "", bodyJson := none },
    workResp := { status := 200, body := "", bodyJson := some (Json.obj []) },
    ratingsResp := { status := 200, body := "", bodyJson := some (Json.obj []) } }

/-- Claim C9 witness: a 404 on the edition record yields `NotFound` with
only the edition call attempted. -/
theorem openlibrary_primary_failure_aborts_witness :
    olBookByIsbn olMissingEditionBackend = (.error .NotFound, [OLCall.edition]) :=
  openlibrary_primary_failure_aborts olMissingEditionBackend .NotFound (by decide)
